import Mathlib

/-!
Verification development for the asynchronous job execution and status
streaming pipeline of the profesh-gpt backend.

The definitions below are a shallow embedding of the Python source:

* `AgentStatus`, `EventType`, `Event` embed
  `src/modules/agent/schemas/agent_schemas.py` (the `AgentStatus` and
  `EventType` enums and the `AgentEvent` pydantic subclasses, flattened
  into a tagged sum with the fields each subclass adds).
* `getChannelName`, `publishEvent`, `subscribeToChannel`,
  `unsubscribeFromChannel`, `repoGetMessage`, `cleanupChannel` embed
  `src/modules/agent/repositories/agent_status_repository.py`;
  Python `try/except` is embedded as `Except` values: a method that
  catches every exception is a function whose result is always `.ok`.
* `RMState`, `managerSubscribe`, `managerUnsubscribe`, `managerGetMessage`,
  `managerPublish` embed the stateful singleton `RedisManager` of
  `src/database/redis.py`; the broker itself is abstracted by a
  `BrokerOracle` that decides which broker calls succeed and what a poll
  of a given pubsub object returns.
* `processAgentCreationTask` / `creationTrace` embed the creation-flow
  executor `process_agent_creation_task` / `_process_agent_creation` /
  `_handle_processing_error` of `src/workers/tasks/agent_tasks.py` as a
  trace of durable status writes and channel publishes, parametrised by
  the point at which the unit of work fails.
* `runAgentEvents` / `runAgentTask` embed the streaming-run executor
  `AgentService.run_agent` / `run_agent_with_publishing` of
  `src/modules/agent/services/agent_service.py` and the task wrapper
  `run_agent_task`.
* `relayRun` embeds the websocket relay endpoints of
  `src/modules/agent/websocket/agent_websocket.py` as a trace of
  registry, subscribe, send and unsubscribe actions driven by a script
  of per-iteration outcomes.
-/

/-- `AgentStatus` enum from `agent_schemas.py`. -/
inductive AgentStatus
  | queued
  | inProgress
  | completed
  | failed
  deriving DecidableEq, Repr

/-- `EventType` enum from `agent_schemas.py`. -/
inductive EventType
  | toolCall
  | toolOutput
  | llmOutput
  | agentComplete
  | agentError
  | agentProcessingStart
  | agentProcessingProgress
  | agentProcessingComplete
  | agentProcessingError
  deriving DecidableEq, Repr

/-- The `AgentEvent` pydantic subclasses of `agent_schemas.py`, as a tagged
sum.  Each constructor carries the fields that the corresponding subclass
adds beyond the base (`run_id` and the optional human `message` are kept;
the auto-generated timestamp and the free-form `data` dict are omitted as
they play no role in any property). -/
inductive Event
  | toolCallEvent (runId : String) (toolName : String) (message : Option String)
  | toolOutputEvent (runId : String) (toolName : String) (output : String)
      (message : Option String)
  | llmOutputEvent (runId : String) (content : String) (isComplete : Bool)
      (message : Option String)
  | agentCompleteEvent (runId : String) (finalOutput : String)
      (message : Option String)
  | agentErrorEvent (runId : String) (errorMessage : String) (errorType : String)
      (message : Option String)
  | agentProcessingStartEvent (runId : String) (agentId : String) (taskId : String)
      (message : Option String)
  | agentProcessingProgressEvent (runId : String) (agentId : String)
      (progress : String) (status : AgentStatus) (message : Option String)
  | agentProcessingCompleteEvent (runId : String) (agentId : String)
      (status : AgentStatus) (message : Option String)
  | agentProcessingErrorEvent (runId : String) (agentId : String)
      (errorMessage : String) (status : AgentStatus) (message : Option String)
  deriving DecidableEq, Repr

namespace Event

/-- The `event_type` discriminant of each event subclass. -/
def eventType : Event → EventType
  | toolCallEvent .. => .toolCall
  | toolOutputEvent .. => .toolOutput
  | llmOutputEvent .. => .llmOutput
  | agentCompleteEvent .. => .agentComplete
  | agentErrorEvent .. => .agentError
  | agentProcessingStartEvent .. => .agentProcessingStart
  | agentProcessingProgressEvent .. => .agentProcessingProgress
  | agentProcessingCompleteEvent .. => .agentProcessingComplete
  | agentProcessingErrorEvent .. => .agentProcessingError

/-- The `status` field, on the event subclasses that declare one
(`AgentProcessingProgressEvent`, `AgentProcessingCompleteEvent`,
`AgentProcessingErrorEvent`); `none` for all the others. -/
def statusField : Event → Option AgentStatus
  | agentProcessingProgressEvent _ _ _ s _ => some s
  | agentProcessingCompleteEvent _ _ s _ => some s
  | agentProcessingErrorEvent _ _ _ s _ => some s
  | _ => none

/-- An event is terminal when it is one of the four end-of-run variants
(`agent_complete`, `agent_error`, `agent_processing_complete`,
`agent_processing_error`). -/
def isTerminal (e : Event) : Bool :=
  match e.eventType with
  | .agentComplete => true
  | .agentError => true
  | .agentProcessingComplete => true
  | .agentProcessingError => true
  | _ => false

end Event

/-- `AgentStatusRepository._get_channel_name`:
`return f"{channel_type}:{run_id}"`.  Argument order follows the Python
signature `(run_id, channel_type)`. -/
def getChannelName (runId : String) (channelType : String := "agent_progress") :
    String :=
  channelType ++ ":" ++ runId

/-- The two channel kinds the system uses (`"agent_progress"` for
token-streaming events, `"agent_processing"` for the creation workflow). -/
def systemChannelKinds : List String := ["agent_progress", "agent_processing"]

/-- C6: `channel_name` is a pure function — equal `(run_id, kind)` inputs give
equal names — and on the system's identifier space (the two channel kinds in
use, arbitrary run ids) distinct `(run_id, kind)` pairs give distinct names,
so the publish and subscribe sides agree on channel names. -/
theorem channel_name_pure_injective
    (r1 r2 k1 k2 : String)
    (h1 : k1 ∈ systemChannelKinds) (h2 : k2 ∈ systemChannelKinds)
    (heq : getChannelName r1 k1 = getChannelName r2 k2) :
    r1 = r2 ∧ k1 = k2 ∧
      (∀ r k : String, getChannelName r k = getChannelName r k) := by
  refine ⟨?_, ?_, fun _ _ => rfl⟩ <;>
  · simp only [systemChannelKinds, List.mem_cons, List.mem_singleton,
      List.not_mem_nil, or_false] at h1 h2
    have hd := congrArg String.data heq
    rcases h1 with h1 | h1 <;> rcases h2 with h2 | h2 <;>
      subst h1 <;> subst h2 <;>
      simp only [getChannelName, String.data_append] at hd <;>
      exact String.ext (by simp at hd ⊢ <;> simp [hd])

/-- Witness for `channel_name_pure_injective` at concrete inputs. -/
theorem channel_name_pure_injective_witness :
    "r1" = "r1" ∧ "agent_progress" = "agent_progress" ∧
      (∀ r k : String, getChannelName r k = getChannelName r k) :=
  channel_name_pure_injective "r1" "r1" "agent_progress" "agent_progress"
    (by simp [systemChannelKinds]) (by simp [systemChannelKinds]) rfl

/-! ## The broker layer: `RedisManager` of `src/database/redis.py`

The real broker (redis) is abstracted by a `BrokerOracle` saying which
broker calls succeed and what polling a given pubsub object returns; the
manager's own state (`redis_client` connected or not, the single shared
`self.pubsub` field) is `RMState`.  An operation that can raise in Python
returns `Except String` here; state mutations already performed before the
raise are kept, so each operation returns its (possibly failed) result
together with the state it leaves behind. -/

/-- The pubsub object returned by `redis_client.pubsub()`: an identity, the
channel it was subscribed to (`none` until `subscribe` succeeds), and
whether `close()` has been called on it. -/
structure PubSub where
  id : Nat
  channel : Option String
  closed : Bool
  deriving DecidableEq, Repr

/-- Mutable state of the module-level `RedisManager` singleton:
`self.redis_client` (connected or `None`) and the single `self.pubsub`
field shared by every caller of the singleton. -/
structure RMState where
  connected : Bool
  pubsub : Option PubSub
  nextId : Nat
  deriving DecidableEq, Repr

/-- The fresh `RedisManager()` state (`redis_client = None`,
`pubsub = None`). -/
def RMState.init : RMState := ⟨false, none, 0⟩

/-- A raw message as returned by `pubsub.get_message`: its `type` field and
its `data` payload. -/
structure RawMessage where
  type : String
  data : Option String
  deriving DecidableEq, Repr

/-- Abstraction of the broker's behaviour during one call sequence: which
operations succeed (a `false` models the corresponding `await` raising) and
what polling a given pubsub object yields. -/
structure BrokerOracle where
  connectOk : Bool
  publishOk : Bool
  subscribeOk : Bool
  unsubscribeOk : Bool
  getMessageOk : Bool
  poll : PubSub → Option RawMessage

/-- An oracle on which every broker call succeeds. -/
def BrokerOracle.allOk (poll : PubSub → Option RawMessage) : BrokerOracle :=
  ⟨true, true, true, true, true, poll⟩

/-- `RedisManager.connect`: establishes the connection or raises. -/
def managerConnect (o : BrokerOracle) (s : RMState) :
    Except String Unit × RMState :=
  if o.connectOk then (.ok (), { s with connected := true })
  else (.error "Failed to connect to Redis", s)

/-- `RedisManager.publish`: connect if needed, then publish (either step may
raise). -/
def managerPublish (_channel _message : String) (o : BrokerOracle)
    (s : RMState) : Except String Unit × RMState :=
  let (c, s) := if s.connected then (.ok (), s) else managerConnect o s
  match c with
  | .error e => (.error e, s)
  | .ok () =>
      if o.publishOk then (.ok (), s) else (.error "publish failed", s)

/-- `RedisManager.subscribe`: connect if needed, then
`self.pubsub = self.redis_client.pubsub()` (replacing whatever pubsub the
field held) followed by `await self.pubsub.subscribe(channel)`.  The new
pubsub object is assigned to the shared field before the awaited subscribe,
so it stays assigned even when the subscribe itself raises. -/
def managerSubscribe (channel : String) (o : BrokerOracle) (s : RMState) :
    Except String PubSub × RMState :=
  let (c, s) := if s.connected then (.ok (), s) else managerConnect o s
  match c with
  | .error e => (.error e, s)
  | .ok () =>
      let ps : PubSub := ⟨s.nextId, none, false⟩
      let s := { s with pubsub := some ps, nextId := s.nextId + 1 }
      if o.subscribeOk then
        let ps := { ps with channel := some channel }
        (.ok ps, { s with pubsub := some ps })
      else (.error "subscribe failed", s)

/-- `RedisManager.unsubscribe`: a no-op when `self.pubsub` is unset;
otherwise `await self.pubsub.unsubscribe(channel)` (may raise) then
`await self.pubsub.close()` on whatever pubsub the shared field currently
holds. -/
def managerUnsubscribe (_channel : String) (o : BrokerOracle) (s : RMState) :
    Except String Unit × RMState :=
  match s.pubsub with
  | none => (.ok (), s)
  | some ps =>
      if o.unsubscribeOk then
        (.ok (), { s with pubsub := some { ps with closed := true } })
      else (.error "unsubscribe failed", s)

/-- `RedisManager.get_message`: returns `None` when `self.pubsub` is unset,
otherwise polls whatever pubsub the shared field currently holds. -/
def managerGetMessage (_timeout : Nat) (o : BrokerOracle) (s : RMState) :
    Except String (Option RawMessage) × RMState :=
  match s.pubsub with
  | none => (.ok none, s)
  | some ps =>
      if o.getMessageOk then (.ok (o.poll ps), s)
      else (.error "get_message failed", s)

/-! ## The Status Repository: `agent_status_repository.py`

Each method wraps the broker layer in `try/except`; an `.ok` result models a
normal return, an `.error` result models an exception escaping the method.
Serialization (`event.model_dump_json()`) and deserialization
(`json.loads`) are abstracted by the `serialize` and `parseJson`
parameters. -/

/-- `AgentStatusRepository.publish_event`: derive the channel name,
serialize, publish; every exception is caught and turned into `False`, a
normal return gives `True`. -/
def publishEvent (runId : String) (event : Event)
    (channelType : String := "agent_progress")
    (serialize : Event → Except String String) (o : BrokerOracle)
    (s : RMState) : Except String Bool × RMState :=
  let channel := getChannelName runId channelType
  match serialize event with
  | .error _ => (.ok false, s)
  | .ok message =>
      let r := managerPublish channel message o s
      (.ok (match r.1 with | .ok () => true | .error _ => false), r.2)

/-- `AgentStatusRepository.subscribe_to_channel`: delegates to the manager;
the `except` clause logs and re-raises, so failure propagates. -/
def subscribeToChannel (runId : String)
    (channelType : String := "agent_progress") (o : BrokerOracle)
    (s : RMState) : Except String PubSub × RMState :=
  managerSubscribe (getChannelName runId channelType) o s

/-- `AgentStatusRepository.unsubscribe_from_channel`: delegates to the
manager; every exception is caught and only logged. -/
def unsubscribeFromChannel (runId : String)
    (channelType : String := "agent_progress") (o : BrokerOracle)
    (s : RMState) : Except String Unit × RMState :=
  (.ok (), (managerUnsubscribe (getChannelName runId channelType) o s).2)

/-- `AgentStatusRepository.get_message`: polls the manager; a payload of a
`"message"`-typed raw message is decoded with `json.loads` (abstracted by
`parseJson`); every exception — broker failure or malformed payload — is
caught and turned into `None`. -/
def repoGetMessage (timeout : Nat) (parseJson : String → Option String)
    (o : BrokerOracle) (s : RMState) : Except String (Option String) × RMState :=
  let r := managerGetMessage timeout o s
  (.ok (match r.1 with
    | .error _ => none
    | .ok none => none
    | .ok (some m) =>
        if m.type = "message" then
          match parseJson (m.data.getD "\x7b\x7d") with
          | some v => some v
          | none => none
        else none), r.2)

/-- `AgentStatusRepository.cleanup_channel`: calls
`unsubscribe_from_channel` inside one more catch-all `try/except`. -/
def cleanupChannel (runId : String)
    (channelType : String := "agent_progress") (o : BrokerOracle)
    (s : RMState) : Except String Unit × RMState :=
  (.ok (), (unsubscribeFromChannel runId channelType o s).2)

/-- `true` iff an `Except` result is a normal return (no exception). -/
def exOk {α : Type} : Except String α → Bool
  | .ok _ => true
  | .error _ => false

/-- `true` iff `serialize` succeeds on `event` (models
`event.model_dump_json()` not raising). -/
def serializeOk (serialize : Event → Except String String) (event : Event) :
    Bool :=
  exOk (serialize event)

/-- `true` iff `RedisManager.publish` succeeds from state `s` under oracle
`o` (the connection is up or can be established, and the broker accepts the
publish). -/
def brokerPublishOk (o : BrokerOracle) (s : RMState) : Bool :=
  (s.connected || o.connectOk) && o.publishOk

/-- `true` iff `RedisManager.subscribe` succeeds from state `s` under oracle
`o`. -/
def brokerSubscribeOk (o : BrokerOracle) (s : RMState) : Bool :=
  (s.connected || o.connectOk) && o.subscribeOk

/-- C4: every broker or serialization failure inside the Status Repository
is converted to a non-exceptional result: `publish_event` always returns a
boolean (`true` exactly when serialization and the broker publish both
succeed, `false` otherwise, never an exception); `get_message` always
returns normally, and its value is pinned to `none` both when the broker
poll fails (for every state) and when the polled payload is malformed —
a `"message"`-typed raw message whose data `json.loads` cannot decode is
dropped as `none` whatever pubsub is current; and `subscribe_to_channel`
alone propagates failure: it returns normally exactly when the underlying
broker subscribe succeeds. -/
theorem status_repository_error_conversion
    (runId kind : String) (event : Event)
    (serialize : Event → Except String String)
    (parseJson : String → Option String) (timeout : Nat)
    (o : BrokerOracle) (s : RMState) (ps : PubSub) (dat : Option String) :
    (publishEvent runId event kind serialize o s).1 =
        .ok (serializeOk serialize event && brokerPublishOk o s) ∧
      (∃ v, (repoGetMessage timeout parseJson o s).1 = .ok v) ∧
      (repoGetMessage timeout parseJson
          { o with getMessageOk := false } s).1 = .ok none ∧
      (repoGetMessage timeout (fun _ => none)
          { o with getMessageOk := true,
                   poll := fun _ => some ⟨"message", dat⟩ }
          { s with pubsub := some ps }).1 = .ok none ∧
      exOk (subscribeToChannel runId kind o s).1 = brokerSubscribeOk o s := by
  refine ⟨?_, ⟨_, rfl⟩, ?_, ?_, ?_⟩
  · cases hser : serialize event <;>
      cases hc : s.connected <;>
      simp [publishEvent, managerPublish, managerConnect, serializeOk, exOk,
        brokerPublishOk, hser, hc] <;>
      cases o.connectOk <;> cases o.publishOk <;> simp
  · cases hp : s.pubsub <;> simp [repoGetMessage, managerGetMessage, hp]
  · simp [repoGetMessage, managerGetMessage]
  · cases hc : s.connected <;>
      simp [subscribeToChannel, managerSubscribe, managerConnect,
        brokerSubscribeOk, hc] <;>
      cases o.connectOk <;> cases o.subscribeOk <;> simp [exOk]

/-- C7: `cleanup_channel` never raises: the first call returns normally,
calling it a second time in a row returns normally, calling it on a state
whose subscription has already been closed returns normally (whatever the
broker does), and under one oracle the second call leaves the state exactly
where the first call left it (a no-op). -/
theorem cleanup_channel_idempotent
    (runId kind : String) (o o2 : BrokerOracle) (s : RMState) (ps : PubSub) :
    (cleanupChannel runId kind o s).1 = .ok () ∧
      (cleanupChannel runId kind o2 (cleanupChannel runId kind o s).2).1 =
        .ok () ∧
      (cleanupChannel runId kind o2
        { s with pubsub := some { ps with closed := true } }).1 = .ok () ∧
      (cleanupChannel runId kind o (cleanupChannel runId kind o s).2).2 =
        (cleanupChannel runId kind o s).2 := by
  refine ⟨rfl, rfl, rfl, ?_⟩
  cases hp : s.pubsub <;>
    cases hu : o.unsubscribeOk <;>
    simp [cleanupChannel, unsubscribeFromChannel, managerUnsubscribe, hp, hu]

/-- Witness for `cleanup_channel_idempotent` at concrete inputs. -/
theorem cleanup_channel_idempotent_witness :
    (cleanupChannel "r1" "agent_progress" (.allOk fun _ => none)
        RMState.init).1 = .ok () ∧
      (cleanupChannel "r1" "agent_progress" (.allOk fun _ => none)
        (cleanupChannel "r1" "agent_progress" (.allOk fun _ => none)
          RMState.init).2).1 = .ok () ∧
      (cleanupChannel "r1" "agent_progress" (.allOk fun _ => none)
        { RMState.init with
            pubsub := some { (⟨0, some "agent_progress:r1", false⟩ : PubSub)
              with closed := true } }).1 = .ok () ∧
      (cleanupChannel "r1" "agent_progress" (.allOk fun _ => none)
        (cleanupChannel "r1" "agent_progress" (.allOk fun _ => none)
          RMState.init).2).2 =
        (cleanupChannel "r1" "agent_progress" (.allOk fun _ => none)
          RMState.init).2 :=
  cleanup_channel_idempotent "r1" "agent_progress" (.allOk fun _ => none)
    (.allOk fun _ => none) RMState.init ⟨0, some "agent_progress:r1", false⟩

/-- C10: polling before any subscription was ever opened: when the
manager's `pubsub` field is unset, `get_message` returns `none` normally —
independently of the timeout and of anything the broker would do (so it
neither raises nor consults the broker or waits). -/
theorem get_message_no_subscription
    (timeout : Nat) (parseJson : String → Option String) (o : BrokerOracle)
    (s : RMState) (h : s.pubsub = none) :
    repoGetMessage timeout parseJson o s = (.ok none, s) := by
  simp [repoGetMessage, managerGetMessage, h]

/-- Witness for `get_message_no_subscription` at concrete inputs. -/
theorem get_message_no_subscription_witness :
    repoGetMessage 1 some
        (.allOk fun _ => some ⟨"message", some "payload"⟩) RMState.init =
      (.ok none, RMState.init) :=
  get_message_no_subscription 1 some
    (.allOk fun _ => some ⟨"message", some "payload"⟩) RMState.init rfl

/-! ## C8: subscription handles under the singleton manager

`src/database/redis.py` ends with `redis_manager = RedisManager()`: every
relay and executor in one process obtains the same manager via
`get_redis_client` (`src/common/utils/dependencies.py`), so they all share
the manager's single `self.pubsub` field. -/

/-- An all-ok oracle whose poll distinguishes the two channels of one run:
a poll of a pubsub subscribed to `agent_processing:r1` yields the message
`"fromB"`, any other poll yields `"fromA"`. -/
def twoRelayOracle : BrokerOracle :=
  .allOk fun ps =>
    if ps.channel = some "agent_processing:r1" then
      some ⟨"message", some "fromB"⟩
    else some ⟨"message", some "fromA"⟩

/-- C8 counterexample: two relays in one process on the same run `r1` (one
per channel kind, as the richer flow does).  Relay A subscribes to
`agent_progress:r1`, then relay B subscribes to `agent_processing:r1` on
the shared manager.  Relay A's next `get_message` poll is answered from
relay B's subscription (it yields `"fromB"`), and relay A's
`cleanup_channel` closes the pubsub object that relay B's subscribe
created — so handles are shared, polling is redirected, and one
subscriber's cleanup tears down the other's subscription, refuting the
claim. -/
theorem shared_pubsub_handle_counterexample :
    (repoGetMessage 1 some twoRelayOracle
        (subscribeToChannel "r1" "agent_processing" twoRelayOracle
          (subscribeToChannel "r1" "agent_progress" twoRelayOracle
            RMState.init).2).2).1 = .ok (some "fromB") ∧
      (cleanupChannel "r1" "agent_progress" twoRelayOracle
        (subscribeToChannel "r1" "agent_processing" twoRelayOracle
          (subscribeToChannel "r1" "agent_progress" twoRelayOracle
            RMState.init).2).2).2.pubsub =
        some ⟨1, some "agent_processing:r1", true⟩ := by
  constructor <;> rfl

/-- C8 amended: the process-wide manager keeps one shared `pubsub` field.
Opening a second subscription (for any channel) replaces the current
handle with a fresh one bound to the second channel; `get_message` polls
whatever handle is current (the most recent subscription, not the
poller's own); and an unsubscribe issued by either subscriber closes the
current — i.e. the other subscriber's — pubsub object. -/
theorem subscription_handle_sharing_amended
    (poll : PubSub → Option RawMessage) (s : RMState)
    (r1 k1 r2 k2 : String) (timeout : Nat) :
    ((subscribeToChannel r2 k2 (.allOk poll)
        (subscribeToChannel r1 k1 (.allOk poll) s).2).2.pubsub =
      some ⟨s.nextId + 1, some (getChannelName r2 k2), false⟩) ∧
    ((managerGetMessage timeout (.allOk poll)
        (subscribeToChannel r2 k2 (.allOk poll)
          (subscribeToChannel r1 k1 (.allOk poll) s).2).2).1 =
      .ok (poll ⟨s.nextId + 1, some (getChannelName r2 k2), false⟩)) ∧
    ((cleanupChannel r1 k1 (.allOk poll)
        (subscribeToChannel r2 k2 (.allOk poll)
          (subscribeToChannel r1 k1 (.allOk poll) s).2).2).2.pubsub =
      some ⟨s.nextId + 1, some (getChannelName r2 k2), true⟩) := by
  cases hc : s.connected <;>
    refine ⟨?_, ?_, ?_⟩ <;>
    simp [subscribeToChannel, managerSubscribe, managerConnect,
      managerGetMessage, cleanupChannel, unsubscribeFromChannel,
      managerUnsubscribe, BrokerOracle.allOk, hc]

/-! ## The Job Executor flows: `src/workers/tasks/agent_tasks.py`

Each run is embedded as the trace of durable status writes
(`update_agent_status` / the `status` field of the record that
`create_agent` inserts) and channel publishes (`publish_event` calls), in
program order, together with the outcome of the inner coroutine and the
return of the Celery task body.  The point at which the unit of work fails
is the scenario parameter; the artificial `asyncio.sleep` delays have no
observable effect and are dropped. -/

/-- One observable step of an executor run: a durable status write or a
publish of an event on a channel. -/
inductive ExecAction
  | persist (s : AgentStatus)
  | publish (channel : String) (e : Event)
  deriving DecidableEq, Repr

/-- The events published by a trace, in order. -/
def publishedEvents (tr : List ExecAction) : List Event :=
  tr.filterMap fun a => match a with
    | .publish _ e => some e
    | .persist _ => none

/-- The statuses written to the durable job record by a trace, in order. -/
def persistedStatuses (tr : List ExecAction) : List AgentStatus :=
  tr.filterMap fun a => match a with
    | .persist s => some s
    | .publish _ _ => none

/-- The channel all creation-flow publishes go to: the worker calls
`publish_event(task_id, event)` without a `channel_type` argument, so the
default `"agent_progress"` kind is used. -/
def creationChannel (taskId : String) : String := getChannelName taskId

/-- The `AgentProcessingStartEvent` built in `_process_agent_creation`. -/
def startEvent (taskId agentId : String) : Event :=
  .agentProcessingStartEvent taskId agentId taskId
    (some "Starting agent processing")

/-- The `AgentProcessingProgressEvent`s built in `_process_agent_creation`
(all carry `status=AgentStatus.IN_PROGRESS`). -/
def progressEvent (taskId agentId label msg : String) : Event :=
  .agentProcessingProgressEvent taskId agentId label .inProgress (some msg)

/-- The `AgentProcessingCompleteEvent` built in `_process_agent_creation`. -/
def completeEvent (taskId agentId : String) : Event :=
  .agentProcessingCompleteEvent taskId agentId .completed
    (some "Agent processing completed successfully")

/-- The `AgentProcessingErrorEvent` built in `_handle_processing_error`. -/
def errorEvent (taskId agentId errMsg : String) : Event :=
  .agentProcessingErrorEvent taskId agentId errMsg .failed
    (some "Agent processing failed")

/-- The `str(e)` of the `DatabaseError` that
`AgentCRUDService.update_agent_status` raises when the durable write
fails. -/
def handlerFailMsg : String := "Failed to update agent status"

/-- `_handle_processing_error`: `update_agent_status(FAILED)` — which can
itself raise (`agent_tasks.py:216`) — then publish the terminal error
event (`publish_event` never raises).  `hOk = true` models the persist
succeeding: `FAILED` is written and the error event published.
`hOk = false` models the persist raising: nothing is written or published
and the handler's own `except` re-raises the exception. -/
def handleProcessingError (taskId agentId errMsg : String) (hOk : Bool) :
    List ExecAction × Except String Unit :=
  if hOk then
    ([.persist .failed,
      .publish (creationChannel taskId) (errorEvent taskId agentId errMsg)],
     .ok ())
  else ([], .error handlerFailMsg)

/-- Where (if anywhere) the unit of work inside `_process_agent_creation`
fails: nowhere; at `update_agent_status(IN_PROGRESS)`; at the resume lookup
(`ValueError("Resume not found")` or a lookup error); or at
`update_agent_status(COMPLETED)`. -/
inductive InnerFailure
  | noFailure
  | persistInProgress
  | resumeLookup
  | persistCompleted
  deriving DecidableEq, Repr

/-- The `str(e)` of the exception each inner failure raises
(`DatabaseError` wraps the two status-update failures). -/
def innerFailureMsg : InnerFailure → String
  | .noFailure => ""
  | .persistInProgress => "Failed to update agent status"
  | .resumeLookup => "Resume not found"
  | .persistCompleted => "Failed to update agent status"

/-- `_process_agent_creation`: publish the start event, persist
`IN_PROGRESS`, publish four progress events with the resume lookup after
the first, persist `COMPLETED`, publish the complete event; on any failure
run `_handle_processing_error` and re-raise.  `hOk` says whether the
handler's own `FAILED` persist succeeds: when it does not, the handler
publishes nothing and its exception propagates in place of the original
(the `raise` after the handler call is never reached).  Returns the trace
and the exception (if any) escaping the coroutine. -/
def processAgentCreation (taskId agentId : String) :
    InnerFailure → Bool → List ExecAction × Except String Unit
  | .noFailure, _ =>
      ([.publish (creationChannel taskId) (startEvent taskId agentId),
        .persist .inProgress,
        .publish (creationChannel taskId)
          (progressEvent taskId agentId "Validating resume"
            "Validating resume document"),
        .publish (creationChannel taskId)
          (progressEvent taskId agentId "Processing resume content"
            "Processing resume content for embedding"),
        .publish (creationChannel taskId)
          (progressEvent taskId agentId "Generating embeddings"
            "Generating embeddings for resume content"),
        .publish (creationChannel taskId)
          (progressEvent taskId agentId "Finalizing agent setup"
            "Finalizing agent configuration"),
        .persist .completed,
        .publish (creationChannel taskId) (completeEvent taskId agentId)],
       .ok ())
  | .persistInProgress, hOk =>
      ([.publish (creationChannel taskId) (startEvent taskId agentId)] ++
        (handleProcessingError taskId agentId
          (innerFailureMsg .persistInProgress) hOk).1,
       .error (if hOk then innerFailureMsg .persistInProgress
               else handlerFailMsg))
  | .resumeLookup, hOk =>
      ([.publish (creationChannel taskId) (startEvent taskId agentId),
        .persist .inProgress,
        .publish (creationChannel taskId)
          (progressEvent taskId agentId "Validating resume"
            "Validating resume document")] ++
        (handleProcessingError taskId agentId
          (innerFailureMsg .resumeLookup) hOk).1,
       .error (if hOk then innerFailureMsg .resumeLookup
               else handlerFailMsg))
  | .persistCompleted, hOk =>
      ([.publish (creationChannel taskId) (startEvent taskId agentId),
        .persist .inProgress,
        .publish (creationChannel taskId)
          (progressEvent taskId agentId "Validating resume"
            "Validating resume document"),
        .publish (creationChannel taskId)
          (progressEvent taskId agentId "Processing resume content"
            "Processing resume content for embedding"),
        .publish (creationChannel taskId)
          (progressEvent taskId agentId "Generating embeddings"
            "Generating embeddings for resume content"),
        .publish (creationChannel taskId)
          (progressEvent taskId agentId "Finalizing agent setup"
            "Finalizing agent configuration")] ++
        (handleProcessingError taskId agentId
          (innerFailureMsg .persistCompleted) hOk).1,
       .error (if hOk then innerFailureMsg .persistCompleted
               else handlerFailMsg))

/-- How one invocation of the Celery task `process_agent_creation_task`
goes: the inner coroutine is reached and fails (or not) at `f`; or
`create_agent` itself raises (no record, `agent` never bound); or
`update_agent_task_id` raises after the record exists. -/
inductive CreationScenario
  | run (f : InnerFailure)
  | failCreateAgent
  | failUpdateTaskId
  deriving DecidableEq, Repr

/-- Everything observable about one creation-task invocation: its trace,
the inner coroutine's outcome (`none` when the coroutine was never
reached), and the task body's own termination — `.ok status` models the
`return {"status": status, ...}` dict, `.error` would model an exception
escaping the task body. -/
structure CreationRun where
  trace : List ExecAction
  innerResult : Option (Except String Unit)
  taskReturn : Except String String
  deriving Repr

/-- `process_agent_creation_task`: `create_agent` inserts the record with
`status=AgentStatus.QUEUED`; then `update_agent_task_id`; then the inner
coroutine.  The task-level `except` catches every exception, runs
`_handle_processing_error` once more when `agent` is bound (so after an
inner failure the handler's persist + error publish normally happen a
second time), and returns a `{"status": "failed"}` dict instead of
re-raising.  `innerHOk`/`outerHOk` say whether the inner and the
task-level handler invocation's own `FAILED` persist succeeds; a failing
task-level handler publishes nothing and its exception is swallowed by the
`except Exception as cleanup_error` clause (`agent_tasks.py:109-110`), so
the task still returns the failed dict. -/
def processAgentCreationTask (taskId agentId : String)
    (innerHOk outerHOk : Bool) : CreationScenario → CreationRun
  | .failCreateAgent =>
      { trace := [], innerResult := none, taskReturn := .ok "failed" }
  | .failUpdateTaskId =>
      { trace := [.persist .queued] ++
          (handleProcessingError taskId agentId "Failed to update task_id"
            outerHOk).1,
        innerResult := none,
        taskReturn := .ok "failed" }
  | .run f =>
      let inner := processAgentCreation taskId agentId f innerHOk
      { trace := [.persist .queued] ++ inner.1 ++
          (match inner.2 with
           | .ok () => []
           | .error m => (handleProcessingError taskId agentId m outerHOk).1),
        innerResult := some inner.2,
        taskReturn := .ok (match inner.2 with
          | .ok () => "completed"
          | .error _ => "failed") }

/-- The action trace of one creation-task invocation. -/
def creationTrace (taskId agentId : String) (sc : CreationScenario)
    (innerHOk outerHOk : Bool) : List ExecAction :=
  (processAgentCreationTask taskId agentId innerHOk outerHOk sc).trace

/-! ## The streaming-run executor: `AgentService.run_agent` /
`run_agent_with_publishing` and the task wrapper `run_agent_task`. -/

/-- One event of the model-output stream consumed in `run_agent`'s
`async for` loop, at the granularity the loop distinguishes. -/
inductive StreamItem
  | toolCall (name : String)
  | toolOutput (name output : String)
  | messageOutput (content : String)
  | rawResponse
  | agentUpdated
  deriving DecidableEq, Repr

/-- The event `run_agent` yields for one stream item (`none` for the
`raw_response_event` / `agent_updated_stream_event` items it skips). -/
def streamItemEvent (runId : String) : StreamItem → Option Event
  | .toolCall name =>
      some (.toolCallEvent runId name (some "Tool called"))
  | .toolOutput name output =>
      some (.toolOutputEvent runId name output (some "Tool output received"))
  | .messageOutput content =>
      some (.llmOutputEvent runId content true (some "LLM output received"))
  | .rawResponse => none
  | .agentUpdated => none

/-- `run_agent`: yields the mapped stream events then an
`AgentCompleteEvent`; if the streamed generation raises after `k` items,
the `except` clause yields an `AgentErrorEvent` (with the exception's text
and type) instead and the generator ends. -/
def runAgentEvents (runId : String) (items : List StreamItem)
    (failure : Option (Nat × String)) : List Event :=
  match failure with
  | none =>
      items.filterMap (streamItemEvent runId) ++
        [.agentCompleteEvent runId "Agent run completed successfully"
          (some "Agent run completed")]
  | some (k, msg) =>
      (items.take k).filterMap (streamItemEvent runId) ++
        [.agentErrorEvent runId msg "Exception" (some "Agent run failed")]

/-- Everything observable about one `run_agent_task` invocation. -/
structure StreamingRun where
  trace : List ExecAction
  innerResult : Except String Unit
  taskReturn : Except String String
  deriving Repr

/-- `run_agent_with_publishing` inside `run_agent_task`: publishes every
yielded event on the run's `agent_progress` channel (publish failures are
only logged).  `escape = some msg` models an exception escaping the
streaming loop itself (the generator swallows its own errors, so this is
the only way the coroutine's `except` runs): the error event is published
and the exception re-raised — and the task body's `except` then returns a
`{"status": "failed"}` dict instead of re-raising. -/
def runAgentTaskRun (runId : String) (items : List StreamItem)
    (failure : Option (Nat × String)) (escape : Option String) :
    StreamingRun :=
  match escape with
  | some msg =>
      { trace := [.publish (getChannelName runId)
          (.agentErrorEvent runId msg "Exception" (some "Agent run failed"))],
        innerResult := .error msg,
        taskReturn := .ok "failed" }
  | none =>
      { trace := (runAgentEvents runId items failure).map
          (.publish (getChannelName runId) ·),
        innerResult := .ok (),
        taskReturn := .ok "completed" }

/-! ## Trace checkers used by the claims. -/

/-- Number of terminal events in a published-event list. -/
def terminalCount (es : List Event) : Nat :=
  es.countP (·.isTerminal)

/-- `true` iff the list is nonempty and its last event is terminal. -/
def lastIsTerminal (es : List Event) : Bool :=
  match es.getLast? with
  | some e => e.isTerminal
  | none => false

/-- `true` iff once a terminal event occurs, every later event is also
terminal (no non-terminal event follows a terminal one). -/
def terminalsAreSuffix : List Event → Bool
  | [] => true
  | e :: rest =>
      if e.isTerminal then rest.all (·.isTerminal)
      else terminalsAreSuffix rest

/-- Walks a trace carrying the durable status (the last status persisted,
starting from `none`): at every publish of a status-carrying event the
durable status must equal the status the event reports. -/
def statusConsistentB : Option AgentStatus → List ExecAction → Bool
  | _, [] => true
  | _, .persist s :: rest => statusConsistentB (some s) rest
  | cur, .publish _ e :: rest =>
      (match e.statusField with
       | none => true
       | some s => cur = some s) && statusConsistentB cur rest

/-- The status-write steps the durable record may take: forward moves of
`queued → in_progress → {completed | failed}` (with the direct
`queued → failed` of a pre-processing failure) and the repeated terminal
`failed → failed` write; nothing ever leaves a terminal state for a
different one. -/
def statusStepOk : AgentStatus → AgentStatus → Bool
  | .queued, .inProgress => true
  | .queued, .failed => true
  | .inProgress, .completed => true
  | .inProgress, .failed => true
  | .failed, .failed => true
  | _, _ => false

/-- `true` iff every adjacent pair of the status list is an allowed step. -/
def statusSeqOk : List AgentStatus → Bool
  | [] => true
  | [_] => true
  | a :: b :: rest => statusStepOk a b && statusSeqOk (b :: rest)

/-- `true` iff the first persisted status (when any) is `queued`. -/
def headIsQueued : List AgentStatus → Bool
  | [] => true
  | s :: _ => s = .queued

/-- The canonical status chain of the spec, ending in the given terminal
status. -/
def statusChain (term : AgentStatus) : List AgentStatus :=
  [.queued, .inProgress, term]

/-- Terminal events published by one creation-task invocation, per
scenario and handler outcome: one on success, none when `create_agent`
fails; on an `update_agent_task_id` failure one if the task-level handler
succeeds, else none; on a processing-coroutine failure one per handler
invocation whose own `FAILED` persist succeeds — two when both the inner
and the task-level handler succeed, one when exactly one does, none when
both fail. -/
def expectedCreationTerminalCount (innerHOk outerHOk : Bool) :
    CreationScenario → Nat
  | .run .noFailure => 1
  | .run _ =>
      (if innerHOk then 1 else 0) + (if outerHOk then 1 else 0)
  | .failCreateAgent => 0
  | .failUpdateTaskId => if outerHOk then 1 else 0

/-- The `status` field of the dict each creation-task invocation
returns. -/
def expectedTaskStatus : CreationScenario → String
  | .run .noFailure => "completed"
  | _ => "failed"

/-- The outcome of `_process_agent_creation` per inner failure: no
exception on success; on a failure, the original exception when the inner
handler's persist succeeds, the handler's own `DatabaseError` when it does
not. -/
def expectedInnerResult (innerHOk : Bool) : InnerFailure → Except String Unit
  | .noFailure => .ok ()
  | f => .error (if innerHOk then innerFailureMsg f else handlerFailMsg)

/-! ## Theorems about the executor flows. -/

lemma streamItems_no_terminal (runId : String) (items : List StreamItem) :
    (items.filterMap (streamItemEvent runId)).countP (·.isTerminal) = 0 := by
  rw [List.countP_eq_zero]
  intro e he
  rw [List.mem_filterMap] at he
  obtain ⟨i, _, hi⟩ := he
  cases i <;> simp [streamItemEvent] at hi <;>
    simp [← hi, Event.isTerminal, Event.eventType]

lemma publishedEvents_map_publish (ch : String) (es : List Event) :
    publishedEvents (es.map (.publish ch ·)) = es := by
  induction es with
  | nil => rfl
  | cons e rest ih =>
      simp only [List.map_cons, publishedEvents, List.filterMap_cons] at ih ⊢
      rw [ih]

lemma runAgentTaskRun_publishedEvents (runId : String)
    (items : List StreamItem) (failure : Option (Nat × String)) :
    publishedEvents (runAgentTaskRun runId items failure none).trace =
      runAgentEvents runId items failure :=
  publishedEvents_map_publish _ _

/-- C1 counterexample: a creation-flow job whose unit of work fails at the
resume lookup, with both error handlers' own persists succeeding (their
normal case), publishes the terminal `agent_processing_error` event twice —
once from the coroutine's error handler and once more from the task
wrapper's — so "exactly one terminal event per job run" is false. -/
theorem creation_flow_duplicate_terminal_event :
    publishedEvents
        (creationTrace "t1" "a1" (.run .resumeLookup) true true) =
      [startEvent "t1" "a1",
        progressEvent "t1" "a1" "Validating resume"
          "Validating resume document",
        errorEvent "t1" "a1" "Resume not found",
        errorEvent "t1" "a1" "Resume not found"] ∧
      terminalCount
        (publishedEvents
          (creationTrace "t1" "a1" (.run .resumeLookup) true true)) =
        2 := by
  exact ⟨rfl, rfl⟩

/-- C1 amended: in the streaming-run flow every run publishes exactly one
terminal event (`agent_complete` or `agent_error`) and it is the last event
published.  In the creation flow no non-terminal event ever follows a
terminal one, but the number of terminal events per run is: one on success;
zero when `create_agent` itself fails (the job ends with no event at all);
on an `update_agent_task_id` failure, one if the task-level error handler's
own `FAILED` persist succeeds and zero if it raises (the handler then
publishes nothing and the wrapper swallows its exception); and on a
processing-coroutine failure, one per error-handler invocation whose
persist succeeds — two (a duplicated `agent_processing_error`) in the
normal case where both the coroutine's handler and the task wrapper's
handler succeed, one or zero when one or both of their persists raise. -/
theorem terminal_event_discipline_amended :
    (∀ (runId : String) (items : List StreamItem)
        (failure : Option (Nat × String)) (escape : Option String),
      terminalCount
          (publishedEvents (runAgentTaskRun runId items failure escape).trace)
            = 1 ∧
        lastIsTerminal
          (publishedEvents (runAgentTaskRun runId items failure escape).trace)
            = true) ∧
      (∀ (t a : String) (sc : CreationScenario) (iOk oOk : Bool),
        terminalCount (publishedEvents (creationTrace t a sc iOk oOk)) =
            expectedCreationTerminalCount iOk oOk sc ∧
          terminalsAreSuffix (publishedEvents (creationTrace t a sc iOk oOk))
            = true) := by
  constructor
  · intro runId items failure escape
    cases escape with
    | some msg => exact ⟨rfl, rfl⟩
    | none =>
        rw [runAgentTaskRun_publishedEvents]
        cases failure with
        | none =>
            refine ⟨?_, ?_⟩
            · rw [runAgentEvents, terminalCount, List.countP_append,
                streamItems_no_terminal]
              rfl
            · rw [runAgentEvents, lastIsTerminal, List.getLast?_concat]
              rfl
        | some p =>
            refine ⟨?_, ?_⟩
            · rw [runAgentEvents, terminalCount, List.countP_append,
                streamItems_no_terminal]
              rfl
            · rw [runAgentEvents, lastIsTerminal, List.getLast?_concat]
              rfl
  · intro t a sc iOk oOk
    rcases sc with f | _ | _
    · cases f <;> cases iOk <;> cases oOk <;> exact ⟨rfl, rfl⟩
    · cases iOk <;> cases oOk <;> exact ⟨rfl, rfl⟩
    · cases iOk <;> cases oOk <;> exact ⟨rfl, rfl⟩

/-- C2: in the creation flow, persistence precedes publication in the sense
the spec gives it: walking any run's trace with the durable status (the
last status written), every published event that reports a status reports
exactly the durable status at that moment — the `in_progress` write
precedes every event carrying `in_progress`, and the `completed`/`failed`
writes precede the events carrying them — so a subscriber that re-reads the
record after an event never sees a status older than the one the event
reports.  This holds on every scenario, including the error handlers' own
failure paths (a failing handler publishes nothing, so it cannot publish
without its preceding persist).  (The status-free `agent_processing_start`
event reports no status and is constrained by nothing.) -/
theorem creation_flow_persist_before_publish :
    ∀ (t a : String) (sc : CreationScenario) (iOk oOk : Bool),
      statusConsistentB none (creationTrace t a sc iOk oOk) = true := by
  intro t a sc iOk oOk
  rcases sc with f | _ | _
  · cases f <;> cases iOk <;> cases oOk <;> rfl
  · cases iOk <;> cases oOk <;> rfl
  · cases iOk <;> cases oOk <;> rfl

/-- C3 counterexample: a failing run of either executor ends with the task
body returning a `{"status": "failed"}` dict normally — the inner unit of
work re-raises (`innerResult` is an error) but the task invocation itself
terminates normally, not exceptionally. -/
theorem task_body_swallows_failure :
    (processAgentCreationTask "t1" "a1" true true
          (.run .resumeLookup)).innerResult =
        some (.error "Resume not found") ∧
      (processAgentCreationTask "t1" "a1" true true
          (.run .resumeLookup)).taskReturn =
        .ok "failed" ∧
      (runAgentTaskRun "r1" [] none (some "boom")).innerResult =
        .error "boom" ∧
      (runAgentTaskRun "r1" [] none (some "boom")).taskReturn =
        .ok "failed" :=
  ⟨rfl, rfl, rfl, rfl⟩

/-- C3 amended: an uncaught failure in the unit of work is caught; the
creation flow's handler maps it to a `failed` persist plus a terminal
error-event publish (its trace ends with exactly that pair) when the
handler's own persist succeeds, and publishes nothing when that persist
itself raises; the streaming flow's `except` publishes the terminal error
event; in both flows an exception (the original or the handler's) is
re-raised out of the inner coroutine — but the Celery task body catches
every exception and returns a normal `{"status": "failed"}` result instead
of re-raising, so the task invocation always terminates normally and the
job queue's own failure bookkeeping never observes an exceptional
termination. -/
theorem executor_failure_handling_amended :
    (∀ (t a : String) (sc : CreationScenario) (iOk oOk : Bool),
      exOk (processAgentCreationTask t a iOk oOk sc).taskReturn = true ∧
        (processAgentCreationTask t a iOk oOk sc).taskReturn =
          .ok (expectedTaskStatus sc)) ∧
      (∀ (t a : String) (f : InnerFailure) (iOk oOk : Bool),
        (processAgentCreationTask t a iOk oOk (.run f)).innerResult =
          some (expectedInnerResult iOk f)) ∧
      (∀ (t a : String) (f : InnerFailure),
        (processAgentCreation t a f true).2 = .ok () ∨
          ∃ p, (processAgentCreation t a f true).1 =
              p ++ [.persist .failed,
                .publish (creationChannel t)
                  (errorEvent t a (innerFailureMsg f))] ∧
            (processAgentCreation t a f true).2 =
              .error (innerFailureMsg f)) ∧
      (∀ (t a m : String),
        handleProcessingError t a m true =
            ([.persist .failed,
              .publish (creationChannel t) (errorEvent t a m)], .ok ()) ∧
          handleProcessingError t a m false = ([], .error handlerFailMsg) ∧
          Event.isTerminal (errorEvent t a m) = true) ∧
      (∀ (r m : String) (items : List StreamItem)
          (failure : Option (Nat × String)),
        exOk (runAgentTaskRun r items failure none).taskReturn = true ∧
          (runAgentTaskRun r items failure (some m)).trace =
            [.publish (getChannelName r)
              (.agentErrorEvent r m "Exception" (some "Agent run failed"))] ∧
          (runAgentTaskRun r items failure (some m)).innerResult =
            .error m ∧
          (runAgentTaskRun r items failure (some m)).taskReturn =
            .ok "failed") := by
  refine ⟨fun t a sc iOk oOk => ?_, fun t a f iOk oOk => ?_,
    fun t a f => ?_, fun t a m => ⟨rfl, rfl, rfl⟩,
    fun r m items failure => ⟨rfl, rfl, rfl, rfl⟩⟩
  · rcases sc with f | _ | _
    · cases f <;> cases iOk <;> cases oOk <;> exact ⟨rfl, rfl⟩
    · exact ⟨rfl, rfl⟩
    · exact ⟨rfl, rfl⟩
  · cases f <;> cases iOk <;> rfl
  · cases f with
    | noFailure => exact Or.inl rfl
    | persistInProgress =>
        exact Or.inr
          ⟨[.publish (creationChannel t) (startEvent t a)], rfl, rfl⟩
    | resumeLookup =>
        exact Or.inr
          ⟨[.publish (creationChannel t) (startEvent t a),
            .persist .inProgress,
            .publish (creationChannel t)
              (progressEvent t a "Validating resume"
                "Validating resume document")], rfl, rfl⟩
    | persistCompleted =>
        exact Or.inr
          ⟨[.publish (creationChannel t) (startEvent t a),
            .persist .inProgress,
            .publish (creationChannel t)
              (progressEvent t a "Validating resume"
                "Validating resume document"),
            .publish (creationChannel t)
              (progressEvent t a "Processing resume content"
                "Processing resume content for embedding"),
            .publish (creationChannel t)
              (progressEvent t a "Generating embeddings"
                "Generating embeddings for resume content"),
            .publish (creationChannel t)
              (progressEvent t a "Finalizing agent setup"
                "Finalizing agent configuration")], rfl, rfl⟩

/-- C9 counterexample: when the unit of work fails at the final
`update_agent_status(COMPLETED)`, the durable record receives the status
sequence `queued, in_progress, failed, failed` — the terminal `failed` is
written twice (inner handler and task-wrapper handler), so the sequence is
not a subsequence of `queued, in_progress, {completed | failed}`. -/
theorem persisted_status_duplicate_failed :
    persistedStatuses
        (creationTrace "t2" "a2" (.run .persistCompleted) true true) =
        [.queued, .inProgress, .failed, .failed] ∧
      ¬ (List.Sublist
          (persistedStatuses
            (creationTrace "t2" "a2" (.run .persistCompleted) true true))
          (statusChain .completed) ∨
         List.Sublist
          (persistedStatuses
            (creationTrace "t2" "a2" (.run .persistCompleted) true true))
          (statusChain .failed)) := by
  constructor
  · rfl
  · intro h
    have hl : persistedStatuses
        (creationTrace "t2" "a2" (.run .persistCompleted) true true) =
        [.queued, .inProgress, .failed, .failed] := rfl
    rcases h with h | h <;> rw [hl] at h <;>
      have := h.length_le <;> simp [statusChain] at this

/-- C9 amended: the sequence of statuses written to the durable record is
`queued` first (set at record creation), then forward steps of
`queued → in_progress → {completed | failed}` (or directly
`queued → failed` when the task fails before the coroutine starts), except
that the terminal `failed` may be written twice in immediate succession
when the processing coroutine fails; no write ever replaces a terminal
status with a different status.  This holds on every scenario, including
the error handlers' own failure paths (a failing handler writes
nothing). -/
theorem persisted_status_monotone_amended :
    ∀ (t a : String) (sc : CreationScenario) (iOk oOk : Bool),
      statusSeqOk (persistedStatuses (creationTrace t a sc iOk oOk)) =
          true ∧
        headIsQueued (persistedStatuses (creationTrace t a sc iOk oOk)) =
          true := by
  intro t a sc iOk oOk
  rcases sc with f | _ | _
  · cases f <;> cases iOk <;> cases oOk <;> exact ⟨rfl, rfl⟩
  · cases iOk <;> cases oOk <;> exact ⟨rfl, rfl⟩
  · cases iOk <;> cases oOk <;> exact ⟨rfl, rfl⟩

/-! ## The Live Relay: `src/modules/agent/websocket/agent_websocket.py`

Both websocket endpoints (`/stream/{run_id}` with kind `agent_progress`,
`/processing/{task_id}` with kind `agent_processing`) have the same shape;
one invocation is embedded as the list of observable relay actions it
performs, driven by how the pre-loop phase goes and by a script of
per-iteration outcomes of the poll loop.  Python `finally` semantics run
the cleanup block on every exit, including a cancellation that bypasses the
`except` clauses. -/

/-- The three frame shapes the relay sends. -/
inductive Frame
  | connectionEstablished (id : String)
  | eventFrame (payload : String)
  | errorFrame (id msg : String)
  deriving DecidableEq, Repr

/-- Observable actions of one relay invocation: insert/remove of the
connection in the module-level `active_connections` dict, the channel
subscribe, frames sent, and the `unsubscribe_from_channel` cleanup call. -/
inductive RelayAction
  | registryAdd (id : String)
  | subscribeCh (channel : String)
  | sendFrame (f : Frame)
  | registryRemove (id : String)
  | unsubscribeCh (channel : String)
  deriving DecidableEq, Repr

/-- How the phase before the poll loop goes: subscribe and the
`connection_established` send succeed; `subscribe_to_channel` raises (the
one repository call whose failure propagates); or the client disconnects
during the `connection_established` send (`WebSocketDisconnect`). -/
inductive PreLoop
  | ok
  | subscribeFails (msg : String)
  | disconnectOnHello
  deriving DecidableEq, Repr

/-- Outcome of one iteration of the poll loop: a 1-second poll timeout with
the client still connected (loop again); a message forwarded with the
client still connected; a message forwarded after which the
`client_state == 3` check observes closure (break); closure observed with
no message (break); an exception inside the loop body, e.g. the send
failing, caught by the inner `except` (break); or a cancellation, which no
`except Exception` catches but whose way out still runs the `finally`. -/
inductive LoopStep
  | timeoutStep
  | forward (payload : String)
  | forwardThenClosed (payload : String)
  | observedClosed
  | iterationError
  | cancelledStep
  deriving DecidableEq, Repr

/-- The poll loop: the actions it performs and whether it is exiting with a
propagating cancellation.  An exhausted script models observing the
connection closed. -/
def relayLoop : List LoopStep → List RelayAction × Bool
  | [] => ([], false)
  | .timeoutStep :: rest => relayLoop rest
  | .forward p :: rest =>
      let (acts, raised) := relayLoop rest
      (.sendFrame (.eventFrame p) :: acts, raised)
  | .forwardThenClosed p :: _ => ([.sendFrame (.eventFrame p)], false)
  | .observedClosed :: _ => ([], false)
  | .iterationError :: _ => ([], false)
  | .cancelledStep :: _ => ([], true)

/-- One relay invocation: accept, register the connection, subscribe, send
the `connection_established` frame, run the poll loop; on a propagating
pre-loop exception other than a disconnect, best-effort send an error
frame; in every case the `finally` block removes the connection from the
registry and calls `unsubscribe_from_channel` (which never raises), then
the coroutine returns (re-raising a cancellation).  The second component
says whether the invocation ends by re-raising. -/
def relayRun (runId kind : String) (pre : PreLoop) (steps : List LoopStep) :
    List RelayAction × Bool :=
  match pre with
  | .subscribeFails msg =>
      ([.registryAdd runId,
        .sendFrame (.errorFrame runId msg),
        .registryRemove runId,
        .unsubscribeCh (getChannelName runId kind)], false)
  | .disconnectOnHello =>
      ([.registryAdd runId,
        .subscribeCh (getChannelName runId kind),
        .registryRemove runId,
        .unsubscribeCh (getChannelName runId kind)], false)
  | .ok =>
      let (body, raised) := relayLoop steps
      ([.registryAdd runId,
        .subscribeCh (getChannelName runId kind),
        .sendFrame (.connectionEstablished runId)] ++ body ++
        [.registryRemove runId,
         .unsubscribeCh (getChannelName runId kind)],
       raised)

/-- `true` on the registry-removal action. -/
def isRegistryRemove : RelayAction → Bool
  | .registryRemove _ => true
  | _ => false

/-- `true` on the channel-cleanup (unsubscribe) action. -/
def isChannelCleanup : RelayAction → Bool
  | .unsubscribeCh _ => true
  | _ => false

/-- `true` on either cleanup action. -/
def isCleanupAct (a : RelayAction) : Bool :=
  isRegistryRemove a || isChannelCleanup a

lemma relayLoop_only_sends (steps : List LoopStep) :
    ∀ a ∈ (relayLoop steps).1, isCleanupAct a = false := by
  induction steps with
  | nil => intro a ha; simp [relayLoop] at ha
  | cons s rest ih =>
      intro a ha
      cases s <;> simp [relayLoop] at ha
      · exact ih a ha
      · rcases ha with h | h
        · subst h; rfl
        · exact ih a h
      · subst ha; rfl

/-- C5: on every exit path of a relay invocation — normal loop exit on
observed closure (also with the script exhausted), disconnect before any
event, a per-iteration error, a subscribe failure, or cancellation — the
channel cleanup (`unsubscribe_from_channel`) happens exactly once and the
registry removal exactly once, and both come after everything else the
relay does, i.e. the connection's entry is removed and the channel cleaned
up before the relay returns. -/
theorem relay_cleanup_exactly_once
    (runId kind : String) (pre : PreLoop) (steps : List LoopStep) :
    (relayRun runId kind pre steps).1.countP isRegistryRemove = 1 ∧
      (relayRun runId kind pre steps).1.countP isChannelCleanup = 1 ∧
      ∃ p, (∀ a ∈ p, isCleanupAct a = false) ∧
        (relayRun runId kind pre steps).1 =
          p ++ [.registryRemove runId,
                .unsubscribeCh (getChannelName runId kind)] := by
  cases pre with
  | subscribeFails msg =>
      refine ⟨rfl, rfl, [.registryAdd runId, .sendFrame (.errorFrame runId msg)],
        ?_, rfl⟩
      intro a ha
      simp [List.mem_cons] at ha
      rcases ha with h | h <;> subst h <;> rfl
  | disconnectOnHello =>
      refine ⟨rfl, rfl,
        [.registryAdd runId, .subscribeCh (getChannelName runId kind)],
        ?_, rfl⟩
      intro a ha
      simp [List.mem_cons] at ha
      rcases ha with h | h <;> subst h <;> rfl
  | ok =>
      have hbody := relayLoop_only_sends steps
      have hzero : ∀ (q : RelayAction → Bool),
          (∀ a, isCleanupAct a = false → q a = false) →
          (relayLoop steps).1.countP q = 0 := by
        intro q hq
        rw [List.countP_eq_zero]
        intro a ha
        simp [hq a (hbody a ha)]
      refine ⟨?_, ?_, ?_⟩
      · show (_ ++ (relayLoop steps).1 ++ _).countP isRegistryRemove = 1
        rw [List.countP_append, List.countP_append,
          hzero isRegistryRemove
            (by intro a h; cases a <;> simp [isCleanupAct, isRegistryRemove,
              isChannelCleanup] at h ⊢)]
        rfl
      · show (_ ++ (relayLoop steps).1 ++ _).countP isChannelCleanup = 1
        rw [List.countP_append, List.countP_append,
          hzero isChannelCleanup
            (by intro a h; cases a <;> simp [isCleanupAct, isRegistryRemove,
              isChannelCleanup] at h ⊢)]
        rfl
      · refine ⟨[.registryAdd runId,
          .subscribeCh (getChannelName runId kind),
          .sendFrame (.connectionEstablished runId)] ++ (relayLoop steps).1,
          ?_, ?_⟩
        · intro a ha
          rw [List.mem_append] at ha
          rcases ha with h | h
          · simp [List.mem_cons] at h
            rcases h with h | h | h <;> subst h <;> rfl
          · exact hbody a h
        · show _ ++ (relayLoop steps).1 ++ _ = _
          rw [List.append_assoc]
